import Mathlib

/-!
Verification of the core logic of the "AI smart wardrobe" application
(`wardrobe_app.py`): the clothing-item data model and its dict
serialization, the JSON-document persistence layer keyed by user name,
the login/seeding flow, the weather lookup fallback, the keyword
similarity finder, and the outfit recommender of tab 1.

Python values are embedded as follows: strings are `String` (for the
similarity finder, whose logic is character by character, python strings
are `List Char`), `None`-able strings are `Option String`, JSON numbers
are `ℚ`, a JSON item object is the structure `ItemDict`, the persisted
document (a JSON object mapping user names to item arrays, insertion
ordered with unique keys) is an association list, and `random.choice`
is supplied the index it draws as an extra `Nat` argument.  Fallible
operations return `Except`/`Option` instead of raising.
-/

/-- One owned garment (`class ClothingItem`, wardrobe_app.py lines 26-35).
`image_path` is `None` when the item has no stored photo. -/
structure ClothingItem where
  name : String
  category : String
  color : String
  material : String
  image_path : Option String
deriving DecidableEq, Repr

/-- The JSON object produced for one item (`to_dict`, lines 37-44).
`image_path = none` stands for both a JSON `null` and an absent key,
which `from_dict` treats identically via `data.get`. -/
structure ItemDict where
  name : String
  category : String
  color : String
  material : String
  image_path : Option String
deriving DecidableEq, Repr

namespace ClothingItem

/-- `ClothingItem.to_dict` (lines 37-44). -/
def to_dict (item : ClothingItem) : ItemDict :=
  { name := item.name
    category := item.category
    color := item.color
    material := item.material
    image_path := item.image_path }

/-- `ClothingItem.from_dict` (lines 46-55); `data.get("image_path")`
yields `none` when the field is absent. -/
def from_dict (data : ItemDict) : ClothingItem :=
  { name := data.name
    category := data.category
    color := data.color
    material := data.material
    image_path := data.image_path }

end ClothingItem

/-- The persisted multi-user document: a JSON object mapping user name to
that user's serialized item list, embedded as an insertion-ordered
association list with unique keys (python `dict`). -/
abbrev Db : Type := List (String × List ItemDict)

/-- Lookup of `db[name]` (first matching key; python dicts have at most
one). `none` embeds a raised `KeyError` / failed `name in db` test. -/
def dbGet (db : Db) (name : String) : Option (List ItemDict) :=
  match db with
  | [] => none
  | (k, v) :: rest => if k = name then some v else dbGet rest name

/-- Assignment `db[name] = items` on a python dict: an existing key keeps
its position and gets the new value, a fresh key is appended at the end. -/
def dbSet (db : Db) (name : String) (items : List ItemDict) : Db :=
  match db with
  | [] => [(name, items)]
  | (k, v) :: rest =>
      if k = name then (k, items) :: rest else (k, v) :: dbSet rest name items

/-- State of the backing file `wardrobe_db.json`: absent, or present with
some contents. -/
inductive FileState where
  | missing : FileState
  | present (contents : String) : FileState

/-- `load_all_data` (lines 58-65).  `parse` embeds `json.load`, which
either yields a document or raises (`none`); a missing file or a parse
failure both produce the empty document, and no error escapes (the
function is total). -/
def load_all_data (parse : String → Option Db) : FileState → Db
  | FileState.missing => []
  | FileState.present s =>
      match parse s with
      | some db => db
      | none => []

/-- The document-update step of `save_current_user_data` (lines 71-76):
the document is loaded, the current user's key is overwritten with the
serialized wardrobe, and the whole document is written back.  `db` is
the loaded document and the result is the document written. -/
def save_current_user_data (user : String) (wardrobe : List ClothingItem)
    (db : Db) : Db :=
  dbSet db user (wardrobe.map ClothingItem.to_dict)

/-- Spec name for the same operation (`saveUserStore(name, store)`). -/
def saveUserStore (name : String) (store : List ClothingItem) (db : Db) : Db :=
  save_current_user_data name store db

/-- `loadUserStore(name)`: the deserialization path of the login handler
(line 139), empty when the user is absent. -/
def loadUserStore (name : String) (db : Db) : List ClothingItem :=
  match dbGet db name with
  | some items => items.map ClothingItem.from_dict
  | none => []

/-- The three default items seeded for a new user (lines 144-146). -/
def default_items : List ClothingItem :=
  [ { name := "白色素T", category := "上衣", color := "白", material := "棉",
      image_path := none },
    { name := "牛仔褲", category := "下身", color := "藍", material := "牛仔布",
      image_path := none },
    { name := "防風外套", category := "外套", color := "黑", material := "尼龍",
      image_path := none } ]

/-- The login handler (lines 134-149) after a name was entered: a known
name loads its stored items and leaves the document alone; a fresh name
seeds the three defaults and saves them.  Returns the session wardrobe
and the resulting persisted document. -/
def login (name : String) (db : Db) : List ClothingItem × Db :=
  match dbGet db name with
  | some items => (items.map ClothingItem.from_dict, db)
  | none => (default_items, save_current_user_data name default_items db)

/-- Outcome of the weather HTTP call in `get_real_weather` (lines 95-104):
a transport failure, or a response from which extracting
`data["current_weather"]["temperature"]` succeeds (`some t`) or raises
(`none`, e.g. missing fields).  The `try` block absorbs every raise. -/
inductive FetchOutcome where
  | netError : FetchOutcome
  | response (extracted : Option ℚ) : FetchOutcome

/-- `get_real_weather` (lines 95-104): the extracted temperature on
success, the fixed fallback 25.0 on any failure. -/
def get_real_weather : FetchOutcome → ℚ
  | FetchOutcome.netError => 25
  | FetchOutcome.response none => 25
  | FetchOutcome.response (some t) => t

/-- Python `str.lower()` on the character list of a string. -/
def lowerChars (s : String) : List Char :=
  s.toList.map Char.toLower

/-- `startsWith s pat`: `pat` is a prefix of `s` (both character lists). -/
def startsWith : List Char → List Char → Bool
  | _, [] => true
  | [], _ :: _ => false
  | c :: s, p :: ps => c = p && startsWith s ps

/-- `hasSub pat s`: python `pat in s`, `pat` occurs contiguously in `s`. -/
def hasSub (pat : List Char) : List Char → Bool
  | [] => startsWith [] pat
  | c :: t => startsWith (c :: t) pat || hasSub pat t

/-- Python `str.split()` with no separator: split on runs of whitespace,
discarding empty words.  `cur` holds the characters of the word being
read, in reverse. -/
def splitWs (cur : List Char) : List Char → List (List Char)
  | [] => if cur = [] then [] else [cur.reverse]
  | c :: rest =>
      if c.isWhitespace then
        if cur = [] then splitWs [] rest else cur.reverse :: splitWs [] rest
      else
        splitWs (c :: cur) rest

/-- The lowercased keyword list `query.lower().split()` (lines 108-110). -/
def tokens (query : String) : List (List Char) :=
  splitWs [] (lowerChars query)

/-- The searchable text of one item,
`f"{item.name} {item.color} {item.material} {item.category}".lower()`
(line 114). -/
def item_text (item : ClothingItem) : List Char :=
  lowerChars (item.name ++ " " ++ item.color ++ " " ++ item.material
    ++ " " ++ item.category)

/-- `find_similar_items` (lines 106-120): an item is kept when its score,
the number of query keywords occurring in its text, is positive. -/
def find_similar_items (query : String) (wardrobe : List ClothingItem) :
    List ClothingItem :=
  wardrobe.filter (fun item =>
    decide (0 < (tokens query).countP (fun w => hasSub w (item_text item))))

/-- Category test for tops (`x.category == "上衣"`, line 188). -/
def isTop (x : ClothingItem) : Bool := x.category == "上衣"

/-- Category test for bottoms (`x.category == "下身"`, line 189). -/
def isBottom (x : ClothingItem) : Bool := x.category == "下身"

/-- Category test for outerwear (`x.category == "外套"`, line 190). -/
def isOuter (x : ClothingItem) : Bool := x.category == "外套"

/-- An outfit produced by tab 1: a top, a bottom, and an optional outer
layer (`selected_outer`, `None` when omitted). -/
structure Outfit where
  top : ClothingItem
  bottom : ClothingItem
  outer : Option ClothingItem
deriving DecidableEq, Repr

/-- Result of pressing the suggestion button: the warning at line 196
(no combination possible) or a rendered outfit. -/
inductive RecommendResult where
  | noCombination : RecommendResult
  | outfit (o : Outfit) : RecommendResult
deriving DecidableEq, Repr

/-- `random.choice(l)` on a nonempty list, drawing position `n % l.length`;
`n` stands for the random draw. -/
def pick (l : List ClothingItem) (n : Nat) (h : l ≠ []) : ClothingItem :=
  l.get ⟨n % l.length, Nat.mod_lt n (List.length_pos.mpr h)⟩

/-- The outfit-suggestion logic of tab 1 (lines 187-203): candidates are
filtered by category alone; with no top or no bottom the warning is
shown; otherwise one top and one bottom are drawn, and one outer layer
is added exactly when the temperature is below 20 and an outer exists.
`r1 r2 r3` stand for the three random draws. -/
def recommend (wardrobe : List ClothingItem) (temp : ℚ) (r1 r2 r3 : Nat) :
    RecommendResult :=
  if h : wardrobe.filter isTop = [] ∨ wardrobe.filter isBottom = [] then
    RecommendResult.noCombination
  else
    RecommendResult.outfit
      { top := pick (wardrobe.filter isTop) r1 (fun he => h (Or.inl he))
        bottom := pick (wardrobe.filter isBottom) r2 (fun he => h (Or.inr he))
        outer :=
          if hc : temp < 20 ∧ wardrobe.filter isOuter ≠ [] then
            some (pick (wardrobe.filter isOuter) r3 hc.2)
          else
            none }

/-- Modelled from the spec: the source in `src/` applies no material rule,
so the spec's fixed warm-weather material set (the eligibility whitelist
for temperatures ≥ 28) is taken from the spec's scenario, which fixes
cotton inside the set and wool outside it. -/
def spec_warm_materials : List String := ["cotton", "linen", "棉"]

/-- Modelled from the spec: material eligibility at temperatures ≥ 28 —
only the fixed warm-weather set passes. -/
def spec_warm_eligible (material : String) : Bool :=
  spec_warm_materials.contains material

/-- Removal of the item at position `i` (`st.session_state.wardrobe.pop(i)`,
line 403): python `list.pop` checks the bound first, so an out-of-range
index raises `IndexError` with the list untouched, embedded as an error
result that produces no new list (the caller keeps the old one). -/
def removeAt (l : List ClothingItem) (i : Nat) :
    Except String (List ClothingItem) :=
  if i < l.length then
    Except.ok (l.eraseIdx i)
  else
    Except.error "pop index out of range"

/-- A wool top, as in the spec scenario for temperature 30. -/
def wool_top : ClothingItem :=
  { name := "毛衣", category := "上衣", color := "灰", material := "wool",
    image_path := none }

/-- A wool bottom, companion to `wool_top`. -/
def wool_bottom : ClothingItem :=
  { name := "毛呢褲", category := "下身", color := "灰", material := "wool",
    image_path := none }

/-- The outfit the code produces from `[wool_top, wool_bottom]`. -/
def wool_outfit : Outfit :=
  { top := wool_top, bottom := wool_bottom, outer := none }

/-- The outfit the code produces from `default_items` at temperature 10
with all three draws 0. -/
def demo_outfit : Outfit :=
  { top := { name := "白色素T", category := "上衣", color := "白",
             material := "棉", image_path := none }
    bottom := { name := "牛仔褲", category := "下身", color := "藍",
                material := "牛仔布", image_path := none }
    outer := some { name := "防風外套", category := "外套", color := "黑",
                    material := "尼龍", image_path := none } }

/-! ## Theorems -/

/-- Serialization then deserialization of one item is the identity. -/
theorem from_dict_to_dict (item : ClothingItem) :
    ClothingItem.from_dict (ClothingItem.to_dict item) = item := rfl

/-- Reading back the key just written yields the value just written. -/
theorem dbGet_dbSet_same (db : Db) (name : String) (items : List ItemDict) :
    dbGet (dbSet db name items) name = some items := by
  induction db with
  | nil => simp [dbSet, dbGet]
  | cons hd tl ih =>
    obtain ⟨k, v⟩ := hd
    by_cases hk : k = name <;> simp [dbSet, dbGet, hk, ih]

/-- Writing one key leaves every other key unchanged. -/
theorem dbGet_dbSet_other (db : Db) (user : String) (items : List ItemDict)
    (other : String) (h : other ≠ user) :
    dbGet (dbSet db user items) other = dbGet db other := by
  induction db with
  | nil => simp [dbSet, dbGet, (Ne.symm h : user ≠ other)]
  | cons hd tl ih =>
    obtain ⟨k, v⟩ := hd
    by_cases hk : k = user
    · subst hk
      simp [dbSet, dbGet, (Ne.symm h : k ≠ other)]
    · by_cases ho : k = other <;> simp [dbSet, dbGet, hk, ho, ih, h]

/-- `random.choice` returns an element of the list it draws from. -/
theorem pick_mem (l : List ClothingItem) (n : Nat) (h : l ≠ []) :
    pick l n h ∈ l := by
  unfold pick
  exact List.get_mem l _ _

/-- The suggestion button shows the warning exactly when the wardrobe has
no top or no bottom. -/
theorem recommend_eq_noCombination_iff (w : List ClothingItem) (t : ℚ)
    (r1 r2 r3 : Nat) :
    recommend w t r1 r2 r3 = RecommendResult.noCombination ↔
      (w.filter isTop = [] ∨ w.filter isBottom = []) := by
  unfold recommend
  split
  next hc => exact iff_of_true rfl hc
  next hc => exact iff_of_false (by simp) hc

/-- Shape of a produced outfit: top and bottom come from the category
candidate lists, and the outer layer is present exactly under the
temperature condition, drawn from the outer candidates. -/
theorem recommend_outfit_mem (w : List ClothingItem) (t : ℚ)
    (r1 r2 r3 : Nat) (o : Outfit)
    (h : recommend w t r1 r2 r3 = RecommendResult.outfit o) :
    o.top ∈ w.filter isTop ∧ o.bottom ∈ w.filter isBottom ∧
    (o.outer.isSome = true ↔ (t < 20 ∧ w.filter isOuter ≠ [])) ∧
    (∀ x, o.outer = some x → x ∈ w.filter isOuter) := by
  unfold recommend at h
  split at h
  · exact absurd h (by simp)
  · rename_i hne
    rw [RecommendResult.outfit.injEq] at h
    by_cases hc : t < 20 ∧ w.filter isOuter ≠ []
    · rw [dif_pos hc] at h
      subst h
      refine ⟨pick_mem _ r1 (fun he => hne (Or.inl he)),
        pick_mem _ r2 (fun he => hne (Or.inr he)), ?_, ?_⟩
      · exact iff_of_true rfl hc
      · intro x hx
        have hx2 : some (pick (w.filter isOuter) r3 hc.2) = some x := hx
        rw [Option.some.injEq] at hx2
        rw [← hx2]
        exact pick_mem _ r3 hc.2
    · rw [dif_neg hc] at h
      subst h
      refine ⟨pick_mem _ r1 (fun he => hne (Or.inl he)),
        pick_mem _ r2 (fun he => hne (Or.inr he)), ?_, ?_⟩
      · exact iff_of_false (by simp) hc
      · intro x hx
        exact absurd (show (none : Option ClothingItem) = some x from hx)
          (by simp)

/-- C4: saving a user's store and loading it back yields the same items in
the same order, and one-item serialization is lossless on every field,
including an absent `image_path`. -/
theorem saveUserStore_loadUserStore_roundtrip (name : String)
    (store : List ClothingItem) (db : Db) :
    loadUserStore name (saveUserStore name store db) = store ∧
    ∀ item : ClothingItem,
      ClothingItem.from_dict (ClothingItem.to_dict item) = item := by
  constructor
  · have h := dbGet_dbSet_same db name (store.map ClothingItem.to_dict)
    unfold loadUserStore saveUserStore save_current_user_data
    rw [h]
    show List.map ClothingItem.from_dict
      (List.map ClothingItem.to_dict store) = store
    rw [List.map_map,
      (funext from_dict_to_dict :
        ClothingItem.from_dict ∘ ClothingItem.to_dict = id),
      List.map_id]
  · exact from_dict_to_dict

/-- C5: `load_all_data` yields the empty document when the backing file is
missing, and equally when its contents fail to parse; both branches are
total, so no error reaches the caller. -/
theorem load_all_data_missing_or_corrupt (parse : String → Option Db)
    (s : String) (h : parse s = none) :
    load_all_data parse FileState.missing = [] ∧
    load_all_data parse (FileState.present s) = [] ∧
    load_all_data parse (FileState.present s) =
      load_all_data parse FileState.missing := by
  refine ⟨rfl, ?_, ?_⟩ <;> simp [load_all_data, h]

/-- Witness for C5 at a concrete failing parse and concrete contents. -/
theorem load_all_data_missing_or_corrupt_witness :
    (fun (_ : String) => (none : Option Db)) "corrupt" = none ∧
    (load_all_data (fun _ => none) FileState.missing = [] ∧
     load_all_data (fun _ => none) (FileState.present "corrupt") = [] ∧
     load_all_data (fun _ => none) (FileState.present "corrupt") =
       load_all_data (fun _ => none) FileState.missing) :=
  ⟨rfl, load_all_data_missing_or_corrupt (fun _ => none) "corrupt" rfl⟩

/-- C9: `get_real_weather` passes the extracted temperature through on
success and returns the fixed fallback 25.0 on a network error or a
malformed response; being total, it propagates no failure. -/
theorem get_real_weather_fallback (t : ℚ) :
    get_real_weather (FetchOutcome.response (some t)) = t ∧
    get_real_weather FetchOutcome.netError = 25 ∧
    get_real_weather (FetchOutcome.response none) = 25 :=
  ⟨rfl, rfl, rfl⟩

/-- C10: saving the current user's wardrobe rewrites only that user's key;
every other key of the loaded document keeps its value. -/
theorem save_current_user_data_frame (db : Db) (user : String)
    (wardrobe : List ClothingItem) (other : String) (h : other ≠ user) :
    dbGet (save_current_user_data user wardrobe db) other = dbGet db other :=
  dbGet_dbSet_other db user (wardrobe.map ClothingItem.to_dict) other h

/-- Witness for C10: saving for `alice` leaves `bob`'s entry readable and
unchanged. -/
theorem save_current_user_data_frame_witness :
    ("bob" ≠ "alice") ∧
    dbGet (save_current_user_data "alice" default_items [("bob", [])]) "bob" =
      dbGet [("bob", [])] "bob" :=
  ⟨by decide,
   save_current_user_data_frame [("bob", [])] "alice" default_items "bob"
     (by decide)⟩

/-- C8: login with a name absent from the database seeds exactly the three
default items — a top, a bottom and an outerwear item — and writes them
to the document; login with a present name loads the stored items and
leaves the document untouched. -/
theorem login_seed_or_load (name : String) (db : Db) :
    (dbGet db name = none →
      login name db =
        (default_items,
         dbSet db name (default_items.map ClothingItem.to_dict)) ∧
      default_items.length = 3 ∧
      default_items.map ClothingItem.category = ["上衣", "下身", "外套"] ∧
      dbGet (login name db).2 name =
        some (default_items.map ClothingItem.to_dict)) ∧
    (∀ items, dbGet db name = some items →
      login name db = (items.map ClothingItem.from_dict, db)) := by
  constructor
  · intro h
    refine ⟨?_, rfl, rfl, ?_⟩
    · unfold login save_current_user_data
      rw [h]
    · unfold login save_current_user_data
      rw [h]
      exact dbGet_dbSet_same db name (default_items.map ClothingItem.to_dict)
  · intro items h
    unfold login
    rw [h]

/-- Witness for C8: a fresh name on the empty document is seeded; a
present name gets its stored (empty) list back with no seeding. -/
theorem login_seed_or_load_witness :
    (dbGet [] "amy" = none) ∧
    login "amy" [] =
      (default_items, dbSet [] "amy" (default_items.map ClothingItem.to_dict)) ∧
    (dbGet [("amy", [])] "amy" = some []) ∧
    login "amy" [("amy", [])] =
      (([] : List ItemDict).map ClothingItem.from_dict, [("amy", [])]) :=
  ⟨rfl, ((login_seed_or_load "amy" []).1 rfl).1, rfl,
   (login_seed_or_load "amy" [("amy", [])]).2 [] rfl⟩

/-- C7: removing at an index with no item produces the OutOfRange error of
`list.pop` and no modified store (the caller's list stays as it was);
removing at a valid index shrinks the store by one and keeps the
remaining items in their original relative order. -/
theorem removeAt_out_of_range_or_shrinks (l : List ClothingItem) (i : Nat) :
    (l.length ≤ i → removeAt l i = Except.error "pop index out of range") ∧
    (i < l.length →
      removeAt l i = Except.ok (l.take i ++ l.drop (i + 1)) ∧
      (l.take i ++ l.drop (i + 1)).length + 1 = l.length) := by
  constructor
  · intro h
    unfold removeAt
    rw [if_neg (Nat.not_lt.mpr h)]
  · intro h
    constructor
    · unfold removeAt
      rw [if_pos h, List.eraseIdx_eq_take_drop_succ]
    · rw [← List.eraseIdx_eq_take_drop_succ]
      exact List.length_eraseIdx_add_one h

/-- Witness for C7: on the three default items, index 1 is removed and the
list shrinks to two; index 5 is out of range and errors. -/
theorem removeAt_out_of_range_or_shrinks_witness :
    (1 < default_items.length) ∧
    removeAt default_items 1 =
      Except.ok (default_items.take 1 ++ default_items.drop 2) ∧
    (default_items.length ≤ 5) ∧
    removeAt default_items 5 = Except.error "pop index out of range" :=
  ⟨by decide, ((removeAt_out_of_range_or_shrinks default_items 1).2
      (by decide)).1,
   by decide, (removeAt_out_of_range_or_shrinks default_items 5).1 (by decide)⟩

/-- C3: whenever the category filters leave no candidate top or no
candidate bottom, the suggestion flow returns the explicit warning
result (line 196); the embedded function is total, so no exception is
raised. -/
theorem recommend_noCombination_of_missing_candidates
    (w : List ClothingItem) (t : ℚ) (r1 r2 r3 : Nat)
    (h : w.filter isTop = [] ∨ w.filter isBottom = []) :
    recommend w t r1 r2 r3 = RecommendResult.noCombination :=
  (recommend_eq_noCombination_iff w t r1 r2 r3).mpr h

/-- Witness for C3: the spec scenario of a store holding a single wool top
and no bottom, at temperature 30. -/
theorem recommend_noCombination_witness :
    (List.filter isTop [wool_top] = [] ∨
      List.filter isBottom [wool_top] = []) ∧
    recommend [wool_top] 30 0 0 0 = RecommendResult.noCombination :=
  ⟨Or.inr (by decide),
   recommend_noCombination_of_missing_candidates [wool_top] 30 0 0 0
     (Or.inr (by decide))⟩

/-- C2: a produced outfit carries an outer layer exactly when the
temperature is below 20 and an outer-layer candidate exists; the outer
layer, when present, is one of the outer candidates; and at temperature
at least 28 no outer layer ever appears. -/
theorem recommend_outer_layer_condition (w : List ClothingItem) (t : ℚ)
    (r1 r2 r3 : Nat) (o : Outfit)
    (h : recommend w t r1 r2 r3 = RecommendResult.outfit o) :
    (o.outer.isSome = true ↔ (t < 20 ∧ w.filter isOuter ≠ [])) ∧
    (∀ x, o.outer = some x → x ∈ w.filter isOuter) ∧
    (28 ≤ t → o.outer = none) := by
  obtain ⟨-, -, hiff, hmem⟩ := recommend_outfit_mem w t r1 r2 r3 o h
  refine ⟨hiff, hmem, fun h28 => ?_⟩
  cases ho : o.outer with
  | none => rfl
  | some x =>
    have hs : o.outer.isSome = true := by rw [ho]; rfl
    have hc := hiff.mp hs
    linarith [hc.1]

/-- Witness for C2: the seeded wardrobe at temperature 10 yields an outfit
with its outer layer, and the iff holds there. -/
theorem recommend_outer_layer_condition_witness :
    recommend default_items 10 0 0 0 = RecommendResult.outfit demo_outfit ∧
    (demo_outfit.outer.isSome = true ↔
      ((10 : ℚ) < 20 ∧ default_items.filter isOuter ≠ [])) :=
  ⟨by decide,
   (recommend_outer_layer_condition default_items 10 0 0 0 demo_outfit
     (by decide)).1⟩

/-- C1, counterexample: the claim says that at temperature 30 only
warm-weather materials are eligible, so a wardrobe whose every item is
wool would have no eligible top and yield NoCombination; the code
filters by category only and happily dresses the user in wool at 30. -/
theorem recommend_material_rule_counterexample :
    spec_warm_eligible "wool" = false ∧
    wool_top.material = "wool" ∧ wool_bottom.material = "wool" ∧
    recommend [wool_top, wool_bottom] 30 0 0 0 ≠
      RecommendResult.noCombination ∧
    recommend [wool_top, wool_bottom] 30 0 0 0 =
      RecommendResult.outfit wool_outfit := by
  refine ⟨rfl, rfl, rfl, ?_, ?_⟩ <;> decide

/-- C1, amended: the recommender restricts candidate tops, bottoms and
outer layers by category alone; material plays no role at any
temperature.  NoCombination occurs exactly when the store has no top or
no bottom by category, and every selected piece comes from its category
candidate list. -/
theorem recommend_category_only (w : List ClothingItem) (t : ℚ)
    (r1 r2 r3 : Nat) :
    (recommend w t r1 r2 r3 = RecommendResult.noCombination ↔
      (w.filter isTop = [] ∨ w.filter isBottom = [])) ∧
    (∀ o, recommend w t r1 r2 r3 = RecommendResult.outfit o →
      o.top ∈ w.filter isTop ∧ o.bottom ∈ w.filter isBottom ∧
      ∀ x, o.outer = some x → x ∈ w.filter isOuter) := by
  refine ⟨recommend_eq_noCombination_iff w t r1 r2 r3, fun o h => ?_⟩
  obtain ⟨h1, h2, -, h4⟩ := recommend_outfit_mem w t r1 r2 r3 o h
  exact ⟨h1, h2, h4⟩

/-- Witness for the amended C1: the all-wool wardrobe at temperature 30
produces an outfit whose top is the wool top, drawn from the category
candidates. -/
theorem recommend_category_only_witness :
    recommend [wool_top, wool_bottom] 30 1 1 1 =
      RecommendResult.outfit wool_outfit ∧
    wool_outfit.top ∈ List.filter isTop [wool_top, wool_bottom] :=
  ⟨by decide,
   ((recommend_category_only [wool_top, wool_bottom] 30 1 1 1).2 wool_outfit
     (by decide)).1⟩

/-- C6: the similarity search returns exactly the items, in original
store order, for which some whitespace token of the lowercased query
occurs as a substring of the item's concatenated lowercased
name-color-material-category text; the empty query returns no items. -/
theorem find_similar_items_matches (query : String)
    (wardrobe : List ClothingItem) :
    find_similar_items query wardrobe =
      wardrobe.filter (fun item =>
        (tokens query).any (fun w => hasSub w (item_text item))) ∧
    find_similar_items "" wardrobe = [] := by
  constructor
  · unfold find_similar_items
    apply List.filter_congr
    intro item _
    rw [Bool.eq_iff_iff, decide_eq_true_eq, List.countP_pos_iff,
      List.any_eq_true]
  · unfold find_similar_items
    have ht : tokens "" = [] := rfl
    rw [ht]
    simp
